import Mathlib

/-!
Verification of the Audio command protocol engine and playback/record
orchestrator of the peterloes/Audio firmware.

The development is a shallow embedding of `Software/drivers/AUDIO.c` and
`Software/Control.c`.  Machine integers are modelled as `Nat`/`Int` with
explicit `% 256` where C truncates to a byte (the `%c` conversions of
`sprintf`).  The module-level `static` variables of both files are collected
in one state record `Sys`; each C function becomes a state transformer
`Sys → Sys`.  Received serial bytes, timer expiries and poll-loop iterations
are events of a small-step transition system.

An important fact about the source text: `AUDIO.c` is stored in UTF-8, so
the string literals used with `strncmp` are multi-byte.  The literal that
reads "A-circumflex" is the byte pair `0xC3 0x82`, "E-ogonek" is
`0xC4 0x98`, "I-circumflex" is `0xC3 0x8E`, "L-acute" is `0xC4 0xB9`, and
the seemingly empty literals in the reply handlers actually contain the
single control byte `0x01` (or `0x02`).  The definitions below embed the
comparisons byte-for-byte as the compiler sees them.
-/

/-- Internal logical states of the AUDIO system (`AUDIO_STATE` in AUDIO.c).
`END_AUDIO_STATE` is the out-of-range value produced by `l_State + 1`
when `l_State` is `AUDIO_STATE_RECOVER`. -/
inductive AUDIO_STATE where
  | AUDIO_STATE_OFF
  | AUDIO_STATE_POWER_ON
  | AUDIO_GET_WORK_STATUS
  | AUDIO_GET_SPACE_LEFT
  | AUDIO_GET_FILE_NUMBERS
  | AUDIO_STATE_SEND_VC
  | AUDIO_STATE_SEND_ST
  | AUDIO_STATE_SEND_IM
  | AUDIO_STATE_SEND_RQ
  | AUDIO_SEND_PLAYBACK
  | AUDIO_SEND_RECORD
  | AUDIO_SEND_PLAYBACK_STOP
  | AUDIO_SEND_RECORD_STOP
  | AUDIO_STATE_OPERATIONAL
  | AUDIO_STATE_RECOVER
  | END_AUDIO_STATE
deriving DecidableEq, Repr

open AUDIO_STATE

/-- The C expression `l_State + 1` on the `AUDIO_STATE` enum. -/
def stateSucc : AUDIO_STATE → AUDIO_STATE
  | AUDIO_STATE_OFF => AUDIO_STATE_POWER_ON
  | AUDIO_STATE_POWER_ON => AUDIO_GET_WORK_STATUS
  | AUDIO_GET_WORK_STATUS => AUDIO_GET_SPACE_LEFT
  | AUDIO_GET_SPACE_LEFT => AUDIO_GET_FILE_NUMBERS
  | AUDIO_GET_FILE_NUMBERS => AUDIO_STATE_SEND_VC
  | AUDIO_STATE_SEND_VC => AUDIO_STATE_SEND_ST
  | AUDIO_STATE_SEND_ST => AUDIO_STATE_SEND_IM
  | AUDIO_STATE_SEND_IM => AUDIO_STATE_SEND_RQ
  | AUDIO_STATE_SEND_RQ => AUDIO_SEND_PLAYBACK
  | AUDIO_SEND_PLAYBACK => AUDIO_SEND_RECORD
  | AUDIO_SEND_RECORD => AUDIO_SEND_PLAYBACK_STOP
  | AUDIO_SEND_PLAYBACK_STOP => AUDIO_SEND_RECORD_STOP
  | AUDIO_SEND_RECORD_STOP => AUDIO_STATE_OPERATIONAL
  | AUDIO_STATE_OPERATIONAL => AUDIO_STATE_RECOVER
  | AUDIO_STATE_RECOVER => END_AUDIO_STATE
  | END_AUDIO_STATE => END_AUDIO_STATE

/-- The byte written by `sprintf` for a `%c` conversion of the C `int`
value `x`: truncation to an unsigned 8-bit value (two's complement). -/
def byteOf (x : Int) : Nat := (Int.emod x 256).toNat

/-- Per-transponder parameter record `ID_PARM` from CfgData.  The field
value `none` models the `DUR_INVALID` sentinel (defined in `config.h`,
which is not part of the repository snapshot): CfgData stores
`DUR_INVALID` for parameters that are unset in the configuration file. -/
structure ID_PARM where
  KeepPlayback : Option Int
  KeepRecord : Option Int
  PlayType : Option Int
deriving DecidableEq, Repr

/-- Joint state of AUDIO.c and Control.c: one field per module-level
`static`/global variable that the verified claims depend on.
The receive buffer is represented by its first three cells `b0 b1 b2`
(the only cells the reply handlers read) plus the index `rxIdx`;
`txBuffer` holds the byte sequence that the TX interrupt handler will
actually emit.  `wdog`/`playRecTimer` are `some d` when the one-shot
timer is armed with `d` seconds remaining.  `ghostOutstanding` is a
specification history variable, not program state: it records that a
playback or record command has been sent and no stop reply has completed
successfully since then. -/
structure Sys where
  lState : AUDIO_STATE
  flgInit : Bool
  flgAudioOn : Bool
  flgAudioIsOn : Bool
  flgTxComplete : Bool
  comErrorCnt : Nat
  txBuffer : List Nat
  rxIdx : Nat
  b0 : Nat
  b1 : Nat
  b2 : Nat
  checkData : Nat
  flgComCompleted : Bool
  recordFileNumber : Int
  digit1 : Int
  digit2 : Int
  digit3 : Int
  audioPlaybackTypeA : Int
  playbackFileNumber : Int
  flgIsPlayAction : Bool
  flgIsRecordBlocked : Bool
  flgIsRecAction : Bool
  flgAudioInitIsDone : Bool
  flgSingleAction : Bool
  flgLocked : Bool
  errAudio : Bool
  pwrRail : Bool
  wdog : Option Nat
  cfgVC : Nat
  cfgST : Nat
  cfgIM : Nat
  cfgRQ : Nat
  playType : Int
  keepPlayback : Int
  keepRecord : Int
  dfltPlayType : Int
  dfltKeepPlayback : Int
  dfltKeepRecord : Int
  flgPlaybackRun : Bool
  flgPlaybackIsRun : Bool
  flgTwiceIDLocked : Bool
  flgAudioPlayRun : Bool
  flgAudioPlayStop : Bool
  flgAudioRecRun : Bool
  flgAudioRecStop : Bool
  audioPlaybackTypeC : Int
  playRecTimer : Option Int
  ghostOutstanding : Bool
deriving DecidableEq, Repr

/-- Embedding of `SendCmd` (AUDIO.c).  The argument is the byte content of
the sprintf buffer.  `strlen`/`strcpy` stop at the first NUL byte, so only
the prefix before a `0x00` byte is copied into `l_TxBuffer` and later
emitted by `USART0_TX_IRQHandler`; `sent` below is therefore exactly the
byte sequence that goes out on the wire.  The watchdog is restarted with
the fixed 60-second timeout on every transmission. -/
def sendCmd (frame : List Nat) (s : Sys) : Sys :=
  let sent := frame.takeWhile (fun x => x ≠ 0)
  if sent.length > 28 then s
  else
    { s with txBuffer := sent, flgTxComplete := false, wdog := some 60 }

/-- Frame built by `AudioSendCmdSeq` for the stop-playback command
`0x7E 0x03 0xAB 0xAE 0x7E`, also used as the harmless dummy command. -/
def stopPlaybackFrame : List Nat := [0x7E, 0x03, 0xAB, 0xAE, 0x7E]

/-- Embedding of `AudioSendCmdSeq` (AUDIO.c).  Builds the frame for the
requested state, saves the state into `l_State` and hands the frame to
`SendCmd`.  The `%c` conversions truncate each C `int` expression to a
byte (`byteOf`); in particular the volume frame checksum `4 + 174 + VC`
can truncate to `0x00`.  The playback and record cases also set
`l_flgLocked` (and with it the specification history variable). -/
def audioSendCmdSeq (st : AUDIO_STATE) (s : Sys) : Sys :=
  match st with
  | AUDIO_GET_WORK_STATUS =>
      sendCmd [0x7E, 0x03, 0xC2, 0xC5, 0x7E] { s with lState := st }
  | AUDIO_GET_SPACE_LEFT =>
      sendCmd [0x7E, 0x03, 0xCE, 0xD1, 0x7E] { s with lState := st }
  | AUDIO_GET_FILE_NUMBERS =>
      sendCmd [0x7E, 0x03, 0xC5, 0xC8, 0x7E] { s with lState := st }
  | AUDIO_STATE_SEND_VC =>
      if s.cfgVC ≠ 0 then
        sendCmd [0x7E, 0x04, 0xAE, byteOf (Int.ofNat s.cfgVC),
                 byteOf (4 + 174 + Int.ofNat s.cfgVC), 0x7E] { s with lState := st }
      else
        sendCmd stopPlaybackFrame { s with lState := st }
  | AUDIO_STATE_SEND_ST =>
      if s.cfgST ≠ 0 then
        sendCmd [0x7E, 0x04, 0xD2, 0x01, 0xD7, 0x7E] { s with lState := st }
      else
        sendCmd stopPlaybackFrame { s with lState := st }
  | AUDIO_STATE_SEND_IM =>
      if s.cfgIM ≠ 0 then
        if s.cfgIM = 1 then
          sendCmd [0x7E, 0x04, 0xD3, 0x01, 0xD8, 0x7E] { s with lState := st }
        else if s.cfgIM = 2 then
          sendCmd [0x7E, 0x04, 0xD3, 0x02, 0xD9, 0x7E] { s with lState := st }
        else
          -- neither inner `if` matches: the sprintf buffer keeps its
          -- previous (indeterminate) content; we model the send of the
          -- unchanged scratch buffer as sending the empty frame
          sendCmd [] { s with lState := st }
      else
        sendCmd stopPlaybackFrame { s with lState := st }
  | AUDIO_STATE_SEND_RQ =>
      if s.cfgRQ ≠ 0 then
        if s.cfgRQ = 1 then
          sendCmd [0x7E, 0x04, 0xD4, 0x01, 0xD9, 0x7E] { s with lState := st }
        else if s.cfgRQ = 2 then
          sendCmd [0x7E, 0x04, 0xD4, 0x02, 0xDA, 0x7E] { s with lState := st }
        else
          sendCmd [0x7E, 0x04, 0xD4, 0x03, 0xDB, 0x7E] { s with lState := st }
      else
        sendCmd stopPlaybackFrame { s with lState := st }
  | AUDIO_SEND_PLAYBACK =>
      let s := { s with flgLocked := true, ghostOutstanding := true }
      if s.playbackFileNumber ≤ (5 : Int) then
        let s := { s with playbackFileNumber := s.playbackFileNumber + 48 }
        sendCmd [0x7E, 0x07, 0xA3, 0x50, 0x30, 0x30,
                 byteOf s.playbackFileNumber,
                 byteOf (7 + 163 + 80 + 48 + 48 + s.playbackFileNumber), 0x7E]
                { s with lState := st }
      else
        sendCmd stopPlaybackFrame { s with lState := st }
  | AUDIO_SEND_RECORD =>
      let s := { s with flgLocked := true, ghostOutstanding := true }
      sendCmd [0x7E, 0x07, 0xD6, 0x52, byteOf s.digit3, byteOf s.digit2,
               byteOf s.digit1,
               byteOf (7 + 214 + 82 + s.digit3 + s.digit2 + s.digit1), 0x7E]
              { s with lState := st }
  | AUDIO_SEND_PLAYBACK_STOP =>
      sendCmd stopPlaybackFrame { s with lState := st }
  | AUDIO_SEND_RECORD_STOP =>
      sendCmd [0x7E, 0x03, 0xD9, 0xDC, 0x7E] { s with lState := st }
  | _ =>
      -- default: log INVALID STATE, cmd = NULL, state = AUDIO_STATE_OFF
      { s with lState := AUDIO_STATE_OFF }

/-- File selection of `AudioPlayback` (AUDIO.c lines 330-353): types up to
5 select the file directly, types 6 to 9 pick `rand() % n + 1` for
`n = 2, 3, 4, 5`; for any other type `PlaybackFileNumber` keeps its old
value.  `r` is the value returned by `rand()`. -/
def playbackSelect (old ty : Int) (r : Nat) : Int :=
  if ty ≤ 5 then ty
  else if ty = 6 then Int.ofNat (r % 2) + 1
  else if ty = 7 then Int.ofNat (r % 3) + 1
  else if ty = 8 then Int.ofNat (r % 4) + 1
  else if ty = 9 then Int.ofNat (r % 5) + 1
  else old

/-- Embedding of `AudioPlayback` (AUDIO.c): select the playback file from
the current playback type and send `AUDIO_SEND_PLAYBACK` (both branches of
the C function end in the same `AudioSendCmdSeq` call). -/
def audioPlayback (r : Nat) (s : Sys) : Sys :=
  audioSendCmdSeq AUDIO_SEND_PLAYBACK
    { s with playbackFileNumber :=
        playbackSelect s.playbackFileNumber s.audioPlaybackTypeA r }

/-- Digit computation of `AudioRecord` (AUDIO.c lines 370-372) for the
incremented record file number `n`, before the ASCII offset 48 is added:
`digit_1 = n % 10`, `digit_2 = ((n - digit_1) % 100) / 10`,
`digit_3 = ((n - digit_2) % 1000) / 100`, with C truncated division. -/
def recordDigits (n : Int) : Int × Int × Int :=
  let d1 := Int.tmod n 10
  let d2 := Int.tdiv (Int.tmod (n - d1) 100) 10
  let d3 := Int.tdiv (Int.tmod (n - d2) 1000) 100
  (d1, d2, d3)

/-- The overflow test of `AudioRecord` (AUDIO.c line 374): the
resource-exhaustion error `Audio: Supports maximum 999 record files` is
logged exactly when `digit_3 >= 9 && digit_2 >= 8 && digit_1 >= 0`. -/
def recordOverflowWarn (d : Int × Int × Int) : Bool :=
  d.2.2 ≥ 9 && d.2.1 ≥ 8 && d.1 ≥ 0

/-- Embedding of `AudioRecord` (AUDIO.c): increments the record file
number, computes the three ASCII digit values and sends
`AUDIO_SEND_RECORD`.  The overflow warning is a log line only; it does
not change any state and is exposed separately via `recordOverflowWarn`. -/
def audioRecord (s : Sys) : Sys :=
  let n := s.recordFileNumber + 1
  let d := recordDigits n
  audioSendCmdSeq AUDIO_SEND_RECORD
    { s with recordFileNumber := n,
             digit1 := d.1 + 48, digit2 := d.2.1 + 48, digit3 := d.2.2 + 48 }

/-- Embedding of `AudioPowerOff` (AUDIO.c): drops the power rail, resets
the protocol state to `AUDIO_STATE_OFF`, clears the audio error source
and resets the lock/playback flags.  Note that it neither cancels the
communication watchdog nor clears the transmit/receive buffers. -/
def audioPowerOff (s : Sys) : Sys :=
  { s with pwrRail := false, lState := AUDIO_STATE_OFF, errAudio := false,
           flgLocked := false, flgSingleAction := true,
           flgIsPlayAction := false, flgAudioInitIsDone := false }

/-- Embedding of `AudioPowerOn` (AUDIO.c), in the configured case
(`l_flgAudioActivate` true): re-initializes the transfer variables,
raises the power rail and enters `AUDIO_STATE_POWER_ON`. -/
def audioPowerOn (s : Sys) : Sys :=
  { s with flgTxComplete := false, rxIdx := 0, pwrRail := true,
           lState := AUDIO_STATE_POWER_ON,
           flgAudioInitIsDone := false, flgLocked := false }

/-- Embedding of `AudioEnable` (AUDIO.c). -/
def audioEnable (s : Sys) : Sys := { s with flgAudioOn := true }

/-- Embedding of `AudioDisable` (AUDIO.c). -/
def audioDisable (s : Sys) : Sys :=
  if s.flgAudioOn then
    let s := { s with flgAudioOn := false }
    if s.flgAudioIsOn then { (audioPowerOff s) with flgAudioIsOn := false }
    else s
  else s

/-- Embedding of `AudioComTimeout` (AUDIO.c), the communication-watchdog
handler.  `MAX_COM_ERROR_CNT` is 10. -/
def audioComTimeout (s : Sys) : Sys :=
  if s.comErrorCnt > 10 then
    audioDisable { s with lState := AUDIO_STATE_OFF }
  else if s.lState = AUDIO_STATE_RECOVER then
    { s with lState := AUDIO_STATE_POWER_ON, flgAudioOn := true }
  else if s.comErrorCnt = 0 && s.lState = AUDIO_GET_WORK_STATUS then
    audioDisable { s with lState := AUDIO_STATE_OFF }
  else if s.lState = AUDIO_STATE_POWER_ON then
    if s.flgInit then
      audioSendCmdSeq AUDIO_GET_WORK_STATUS
        { s with flgInit := false, flgTxComplete := true }
    else
      audioSendCmdSeq AUDIO_GET_FILE_NUMBERS { s with flgTxComplete := true }
  else
    let s := { s with comErrorCnt := s.comErrorCnt + 1 }
    if s.comErrorCnt < 10 then
      { (audioDisable s) with lState := AUDIO_STATE_RECOVER, wdog := some 60 }
    else s

/-- Embedding of `CheckAudioData` (AUDIO.c), called once per received
byte.  The entry cancels the watchdog.  The comparisons follow the UTF-8
bytes of the string literals: every two-byte `strncmp` against one of the
status literals compares the same two bytes (`0xC4 0x98` in the power-on
and operational cases, `0xC3 0x82` in the work-status case), because the
distinguishing third byte of the literal is beyond the compared length. -/
def checkAudioData (s : Sys) : Sys :=
  let s := { s with wdog := none }
  match s.lState with
  | AUDIO_STATE_POWER_ON =>
      if s.b0 = 0xC4 then
        if s.checkData ≥ 2 then
          -- four identical comparisons of b0 b1 with C4 98 (log only),
          -- then the POWER_UP_DELAY (5 s) timer is started
          { s with wdog := some 5, checkData := 0 + 1, flgComCompleted := true }
        else { s with checkData := s.checkData + 1 }
      else { s with errAudio := true, flgComCompleted := true }
  | AUDIO_GET_WORK_STATUS =>
      if s.b0 = 0xC3 then
        if s.checkData ≥ 2 then
          -- literal for 0x01 Playing: bytes C3 82 compared
          let s := if s.b0 = 0xC3 && s.b1 = 0x82 then
                     audioSendCmdSeq (stateSucc s.lState) s else s
          -- literal for 0x02 Stopped: the same bytes C3 82 compared
          let s := if s.b0 = 0xC3 && s.b1 = 0x82 then
                     { s with lState := AUDIO_STATE_OPERATIONAL } else s
          -- literal for 0x03 Paused: the same bytes C3 82 compared
          let s := if s.b0 = 0xC3 && s.b1 = 0x82 then
                     audioSendCmdSeq (stateSucc s.lState) s else s
          -- literal for 0x04 Recording: the same bytes C3 82 compared
          let s := if s.b0 = 0xC3 && s.b1 = 0x82 then
                     audioSendCmdSeq (stateSucc s.lState) s else s
          -- literal for 0x05 Fast forward/backward: the same bytes compared
          let s := if s.b0 = 0xC3 && s.b1 = 0x82 then
                     audioSendCmdSeq (stateSucc s.lState) s else s
          { s with checkData := 0 + 1, flgComCompleted := true }
        else { s with checkData := s.checkData + 1 }
      else { s with errAudio := true, flgComCompleted := true }
  | AUDIO_GET_SPACE_LEFT =>
      if s.b0 = 0xC3 then
        if s.checkData ≥ 3 then
          if s.b2 ≠ 0 then
            let s := audioSendCmdSeq (stateSucc s.lState)
                       { s with checkData := 0, flgComCompleted := true }
            { s with checkData := s.checkData + 1 }
          else
            { s with errAudio := true, checkData := 0 + 1,
                     flgComCompleted := true }
        else { s with checkData := s.checkData + 1 }
      else { s with errAudio := true, checkData := 0 }
  | AUDIO_GET_FILE_NUMBERS =>
      if s.b0 = 0xC4 then
        if s.checkData ≥ 3 then
          if s.b2 ≠ 0 then
            let v : Int := Int.ofNat (s.b1 / 16 % 16 * 4096 + s.b1 % 16 * 256
                             + s.b2 / 16 % 16 * 16 + s.b2 % 16)
            let s := audioSendCmdSeq (stateSucc s.lState)
                       { s with recordFileNumber := v - 5, checkData := 0,
                                flgComCompleted := true }
            { s with checkData := s.checkData + 1 }
          else
            { s with errAudio := true, checkData := 0 + 1,
                     flgComCompleted := true }
        else { s with checkData := s.checkData + 1 }
      else { s with errAudio := true, checkData := 0 }
  | AUDIO_STATE_SEND_VC =>
      -- the failure literal contains the single byte 0x01
      let s := if s.b0 = 1 then { s with errAudio := true } else s
      audioSendCmdSeq (stateSucc s.lState)
        { s with checkData := 1, flgComCompleted := true }
  | AUDIO_STATE_SEND_ST =>
      let s := if s.b0 = 1 then { s with errAudio := true } else s
      audioSendCmdSeq (stateSucc s.lState)
        { s with checkData := 1, flgComCompleted := true }
  | AUDIO_STATE_SEND_IM =>
      let s := if s.b0 = 1 then { s with errAudio := true } else s
      audioSendCmdSeq (stateSucc s.lState)
        { s with checkData := 1, flgComCompleted := true }
  | AUDIO_STATE_SEND_RQ =>
      let s := if s.b0 = 1 then
                 { s with errAudio := true, flgAudioInitIsDone := false }
               else { s with errAudio := false }
      { s with checkData := 1, flgComCompleted := true,
               lState := AUDIO_STATE_OPERATIONAL, flgLocked := false,
               flgAudioInitIsDone := true }
  | AUDIO_SEND_PLAYBACK =>
      { s with playbackFileNumber := 0, flgComCompleted := true,
               lState := AUDIO_STATE_OPERATIONAL }
  | AUDIO_SEND_RECORD =>
      { s with digit1 := 0, digit2 := 0, digit3 := 0,
               flgComCompleted := true, lState := AUDIO_STATE_OPERATIONAL }
  | AUDIO_SEND_PLAYBACK_STOP =>
      let s := if s.b0 = 1 then s
               else { s with flgLocked := false, ghostOutstanding := false }
      { s with flgIsRecordBlocked := false, flgComCompleted := true,
               lState := AUDIO_STATE_OPERATIONAL }
  | AUDIO_SEND_RECORD_STOP =>
      let s := if s.b0 = 1 then s
               else { s with flgLocked := false, ghostOutstanding := false }
      { s with flgComCompleted := true, lState := AUDIO_STATE_OPERATIONAL }
  | AUDIO_STATE_OPERATIONAL =>
      if s.b0 = 0xC4 then
        if s.checkData ≥ 2 then
          { s with checkData := 0 + 1, flgComCompleted := true }
        else { s with checkData := s.checkData + 1 }
      else { s with flgComCompleted := true }
  | _ => { s with errAudio := true, flgComCompleted := true }

/-- Write one received byte into the modelled prefix of `l_RxBuffer`
(cells beyond index 2 are never read by the reply handlers). -/
def writeRx (i v : Nat) (s : Sys) : Sys :=
  if i = 0 then { s with b0 := v }
  else if i = 1 then { s with b1 := v }
  else if i = 2 then { s with b2 := v }
  else s

/-- Embedding of `USART0_RX_IRQHandler` (AUDIO.c) for one received byte:
`0xFF` is ignored, otherwise the byte is stored (restarting the buffer
when the previous exchange completed) and `CheckAudioData` runs.  The
buffer bound is `sizeof(l_RxBuffer) - 2 = 148`. -/
def usartRx (rx : Nat) (s : Sys) : Sys :=
  if rx = 0xFF then s
  else if s.rxIdx < 148 then
    let s := if s.flgComCompleted then
               { s with rxIdx := 0, b1 := 0, b2 := 0, flgComCompleted := false }
             else s
    let s := writeRx s.rxIdx rx s
    checkAudioData { s with rxIdx := s.rxIdx + 1 }
  else if s.rxIdx < 149 then
    writeRx s.rxIdx 0 { s with rxIdx := s.rxIdx + 1 }
  else s

/-- Power section of `AudioCheck` (AUDIO.c lines 496-514): power the
module on or off according to `l_flgAudioOn`. -/
def audioCheckPower (s : Sys) : Sys :=
  if s.flgAudioOn then
    if !s.flgAudioIsOn then { (audioPowerOn s) with flgAudioIsOn := true }
    else s
  else
    if s.flgAudioIsOn then
      { (audioPowerOff s) with flgAudioIsOn := false, flgSingleAction := false }
    else s

/-- Start-playback section of `AudioCheck` (AUDIO.c lines 517-536).  The
`isPlayRun`/`isPlayStop` arguments are the values of the control flags
read at the top of `AudioCheck`. -/
def audioCheckPlayStart (r : Nat) (isPlayRun isPlayStop : Bool) (s : Sys) : Sys :=
  if isPlayRun && !isPlayStop && !s.flgIsPlayAction then
    if s.flgAudioInitIsDone then
      audioPlayback r { s with flgIsPlayAction := true,
                               flgSingleAction := false,
                               flgIsRecordBlocked := true }
    else if !s.flgSingleAction then
      { s with flgSingleAction := true, flgLocked := false }
    else s
  else s

/-- Stop-playback section of `AudioCheck` (AUDIO.c lines 539-544). -/
def audioCheckPlayStop (isPlayRun isPlayStop : Bool) (s : Sys) : Sys :=
  if isPlayStop && !isPlayRun && s.flgIsPlayAction then
    audioSendCmdSeq AUDIO_SEND_PLAYBACK_STOP { s with flgIsPlayAction := false }
  else s

/-- Start-record section of `AudioCheck` (AUDIO.c lines 547-565). -/
def audioCheckRecStart (isRecRun isRecStop : Bool) (s : Sys) : Sys :=
  if isRecRun && !isRecStop && !s.flgIsRecAction && !s.flgIsRecordBlocked then
    if s.flgAudioInitIsDone then
      audioRecord { s with flgIsRecAction := true, flgSingleAction := false }
    else if !s.flgSingleAction then
      { s with flgSingleAction := true, flgLocked := false }
    else s
  else s

/-- Stop-record section of `AudioCheck` (AUDIO.c lines 568-573). -/
def audioCheckRecStop (isRecRun isRecStop : Bool) (s : Sys) : Sys :=
  if isRecStop && !isRecRun && s.flgIsRecAction then
    audioSendCmdSeq AUDIO_SEND_RECORD_STOP { s with flgIsRecAction := false }
  else s

/-- Embedding of `AudioCheck` (AUDIO.c), one poll-loop iteration.  The
control flags are read once at entry (as in the C function) and passed to
the four action sections; `r` is the value `rand()` returns if a playback
is started in this iteration. -/
def audioCheck (r : Nat) (s : Sys) : Sys :=
  let isPlayRun := s.flgAudioPlayRun
  let isPlayStop := s.flgAudioPlayStop
  let isRecRun := s.flgAudioRecRun
  let isRecStop := s.flgAudioRecStop
  let s := { s with audioPlaybackTypeA := s.audioPlaybackTypeC }
  let s := audioCheckPower s
  let s := audioCheckPlayStart r isPlayRun isPlayStop s
  let s := audioCheckPlayStop isPlayRun isPlayStop s
  let s := audioCheckRecStart isRecRun isRecStop s
  audioCheckRecStop isRecRun isRecStop s

/-- Resolution of an optional per-ID parameter against its configured
default (the `pID->X == DUR_INVALID ? dflt : pID->X` expressions). -/
def resolveDur (v : Option Int) (dflt : Int) : Int :=
  match v with
  | none => dflt
  | some x => x

/-- Embedding of `PlaybackRun` (Control.c). -/
def playbackRun (s : Sys) : Sys :=
  let s := { s with flgPlaybackRun := true }
  if !s.flgPlaybackIsRun then
    { s with flgPlaybackIsRun := true, audioPlaybackTypeC := s.playType,
             flgAudioPlayRun := true, flgAudioPlayStop := false }
  else s

/-- Embedding of `RecordRun` (Control.c). -/
def recordRun (s : Sys) : Sys :=
  let s := { s with flgPlaybackRun := false }
  if !s.flgPlaybackIsRun then
    { s with flgAudioRecRun := true, flgAudioRecStop := false }
  else s

/-- Embedding of `ControlUpdateID` (Control.c).  The four arguments are
the results the external lookup collaborator `CfgLookupID` would return
for the transponder ID itself, for `ANY` and for `UNKNOWN`, and the
indeterminate value that the uninitialized local variable `pID` holds
when the guarded lookup is skipped.  The local `pID` is assigned before
the `pID == NULL` test only when
`!isAudioLocked || !l_flgTwiceIDLocked` holds; the second component of
the result records that the test read the uninitialized value. -/
def controlUpdateID (found anyE unkE garbage : Option ID_PARM) (s : Sys) :
    Sys × Bool :=
  let isAudioLocked := s.flgLocked
  let assigned := !isAudioLocked || !s.flgTwiceIDLocked
  let uninit := !assigned
  let pID := if assigned then found else garbage
  let pID :=
    match pID with
    | some p => some p
    | none =>
        match anyE with
        | some p => some p
        | none => unkE
  match pID with
  | none => (s, uninit)
  | some parm =>
      let s :=
        if !isAudioLocked || !s.flgTwiceIDLocked then
          { s with keepPlayback := resolveDur parm.KeepPlayback s.dfltKeepPlayback,
                   keepRecord := resolveDur parm.KeepRecord s.dfltKeepRecord,
                   playType := resolveDur parm.PlayType s.dfltPlayType,
                   flgTwiceIDLocked := true }
        else s
      let s :=
        if s.keepPlayback > 0 then
          if !isAudioLocked then
            { (playbackRun s) with playRecTimer := some s.keepPlayback }
          else s
        else
          if s.keepRecord > 0 then
            if !isAudioLocked then
              { (recordRun s) with playRecTimer := some s.keepRecord }
            else s
          else s
      (s, uninit)

/-- Embedding of `PlayRecAction` (Control.c), the keep-alive timer
handler. -/
def playRecAction (s : Sys) : Sys :=
  if s.flgPlaybackRun then
    let s := { s with flgPlaybackIsRun := false, playRecTimer := none,
                      flgAudioPlayStop := true, flgAudioPlayRun := false }
    let s := if s.keepRecord > 0 then
               { (recordRun s) with playRecTimer := some s.keepRecord }
             else s
    { s with flgPlaybackRun := false, flgTwiceIDLocked := false }
  else
    { s with flgPlaybackRun := true, playRecTimer := none,
             flgAudioRecStop := true, flgAudioRecRun := false,
             flgTwiceIDLocked := false }

/-- Events of the transition system: an ID-update from the RFID reader, a
keep-alive (`PlayRecAction`) timer expiry, one poll-loop iteration, one
received serial byte, a communication-watchdog expiry, and the explicit
enable/disable calls of the power sequencer. -/
inductive Ev where
  | updateID (found anyE unkE garbage : Option ID_PARM)
  | keepAlive
  | check (r : Nat)
  | rx (b : Nat)
  | txDone
  | timeout
  | enable
  | disable
deriving DecidableEq, Repr

/-- One step of the transition system.  The timer events are gated on the
corresponding timer being armed (a one-shot timer fires only when it was
started and not cancelled). -/
def step (e : Ev) (s : Sys) : Sys :=
  match e with
  | Ev.updateID f a u g => (controlUpdateID f a u g s).1
  | Ev.keepAlive =>
      if s.playRecTimer ≠ none then playRecAction { s with playRecTimer := none }
      else s
  | Ev.check r => audioCheck r s
  | Ev.rx b => usartRx b s
  | Ev.txDone => { s with flgTxComplete := true }
  | Ev.timeout =>
      if s.wdog ≠ none then audioComTimeout { s with wdog := none } else s
  | Ev.enable => audioEnable s
  | Ev.disable => audioDisable s

/-- Run a list of events in order. -/
def run (evs : List Ev) (s : Sys) : Sys :=
  evs.foldl (fun t e => step e t) s

/-- State of the system directly after `AudioInit` at boot: audio
configured and activated, power off, all static variables at their
C initial values (`l_State = AUDIO_STATE_OFF`, `l_CheckData = 1`,
`l_flgPlaybackRun = true`, everything else zero/false/idle). -/
def initSys (vc st im rq : Nat) (dpt dkp dkr : Int) : Sys :=
  { lState := AUDIO_STATE_OFF, flgInit := true, flgAudioOn := false,
    flgAudioIsOn := false, flgTxComplete := false, comErrorCnt := 0,
    txBuffer := [], rxIdx := 0, b0 := 0, b1 := 0, b2 := 0, checkData := 1,
    flgComCompleted := false, recordFileNumber := 0, digit1 := 0,
    digit2 := 0, digit3 := 0, audioPlaybackTypeA := 0,
    playbackFileNumber := 0, flgIsPlayAction := false,
    flgIsRecordBlocked := false, flgIsRecAction := false,
    flgAudioInitIsDone := false, flgSingleAction := false,
    flgLocked := false, errAudio := false, pwrRail := false, wdog := none,
    cfgVC := vc, cfgST := st, cfgIM := im, cfgRQ := rq, playType := dpt,
    keepPlayback := dkp, keepRecord := dkr, dfltPlayType := dpt,
    dfltKeepPlayback := dkp, dfltKeepRecord := dkr, flgPlaybackRun := true,
    flgPlaybackIsRun := false, flgTwiceIDLocked := false,
    flgAudioPlayRun := false, flgAudioPlayStop := false,
    flgAudioRecRun := false, flgAudioRecStop := false,
    audioPlaybackTypeC := 0, playRecTimer := none,
    ghostOutstanding := false }

/-- The engine-ready idle state: the state reached when the
initialization exchange has completed (the `AUDIO_STATE_SEND_RQ` reply
handler has run: init-done true, state Operational, lock false) and no
playback or record activity has been requested yet.  `rfn` is the record
file sequence number seeded from the reported file count, `txb` the
content left in the transmit buffer by the last configuration command. -/
def readySys (vc st im rq : Nat) (dpt dkp dkr rfn : Int) (txb : List Nat) : Sys :=
  { lState := AUDIO_STATE_OPERATIONAL, flgInit := false, flgAudioOn := true,
    flgAudioIsOn := true, flgTxComplete := true, comErrorCnt := 0,
    txBuffer := txb, rxIdx := 1, b0 := 2, b1 := 0, b2 := 0, checkData := 1,
    flgComCompleted := true, recordFileNumber := rfn, digit1 := 0,
    digit2 := 0, digit3 := 0, audioPlaybackTypeA := 0,
    playbackFileNumber := 0, flgIsPlayAction := false,
    flgIsRecordBlocked := false, flgIsRecAction := false,
    flgAudioInitIsDone := true, flgSingleAction := true,
    flgLocked := false, errAudio := false, pwrRail := true, wdog := none,
    cfgVC := vc, cfgST := st, cfgIM := im, cfgRQ := rq, playType := dpt,
    keepPlayback := dkp, keepRecord := dkr, dfltPlayType := dpt,
    dfltKeepPlayback := dkp, dfltKeepRecord := dkr, flgPlaybackRun := true,
    flgPlaybackIsRun := false, flgTwiceIDLocked := false,
    flgAudioPlayRun := false, flgAudioPlayStop := false,
    flgAudioRecRun := false, flgAudioRecStop := false,
    audioPlaybackTypeC := 0, playRecTimer := none,
    ghostOutstanding := false }

/-- The event classes named by the lock-flag claim: ID updates and
keep-alive expiries, together with the machinery that carries them out
(poll-loop iterations and received reply bytes).  Watchdog-timeout error
handling and explicit enable/disable are not part of this claim. -/
def claimEv : Ev → Prop
  | Ev.updateID _ _ _ _ => True
  | Ev.keepAlive => True
  | Ev.check _ => True
  | Ev.rx _ => True
  | Ev.txDone => True
  | _ => False

/-- Reachability from a given state under the claim events. -/
inductive Reach2 (s0 : Sys) : Sys → Prop where
  | refl : Reach2 s0 s0
  | next : ∀ {s} (e : Ev), Reach2 s0 s → claimEv e → Reach2 s0 (step e s)

/-- Reachability from a given state under all events. -/
inductive ReachAll (s0 : Sys) : Sys → Prop where
  | refl : ReachAll s0 s0
  | next : ∀ {s} (e : Ev), ReachAll s0 s → ReachAll s0 (step e s)

/-- A fixed configuration used for concrete witnesses: volume 20, USB
storage, LINE-IN input, 96 kbps quality, playback type 2, keep-playback
5 s, keep-record 10 s. -/
def bootSys : Sys := initSys 20 1 1 1 2 5 10

/-- A concrete boot trace: enable, power-on poll, power-up prompt bytes,
power-up settle expiry, first-power-up timeout (peripheral silent), a
second enable/power-on cycle, settle expiry into the file-number query,
the file-count reply (300 files), and one reply byte for each of the four
configuration commands. -/
def bootTrace : List Ev :=
  [Ev.enable, Ev.check 0, Ev.rx 0xC4, Ev.rx 0x98, Ev.timeout, Ev.timeout,
   Ev.enable, Ev.check 0, Ev.rx 0xC4, Ev.rx 0x98, Ev.timeout,
   Ev.rx 0xC4, Ev.rx 0x01, Ev.rx 0x2C, Ev.rx 0x02, Ev.rx 0x02, Ev.rx 0x02,
   Ev.rx 0x02, Ev.txDone]

/-- Validation of the ready state: the concrete boot trace drives the
embedded system from the post-`AudioInit` state to exactly the
engine-ready idle state used as the starting point of the lock-flag
claims (record baseline 300 - 5 = 295, recording-quality frame left in
the transmit buffer). -/
theorem readySys_reachable_from_boot :
    run bootTrace bootSys =
      readySys 20 1 1 1 2 5 10 295 [0x7E, 0x04, 0xD4, 0x01, 0xD9, 0x7E] := by
  decide

/-- C1, counterexample: for PlayType 6 the code draws `rand() % 2 + 1`,
so with `rand() = 1` it selects file 2, which is outside the claimed
range `1..(PlayType - 5) = 1..1`. -/
theorem C1_playback_range_counterexample :
    playbackSelect 0 6 1 = 2 ∧ ¬((2 : Int) ≤ 6 - 5) := by decide

/-- C1, amended: for every PlayType in 1..5 the selection is
deterministic and equals PlayType; for every PlayType in 6..9 every
selection lies in 1..(PlayType - 4) (the code draws among the first
`PlayType - 4` files, e.g. PlayType 6 among files 1..2). -/
theorem C1_playback_selection (old ty : Int) (r : Nat) :
    (1 ≤ ty ∧ ty ≤ 5 → playbackSelect old ty r = ty) ∧
    (6 ≤ ty ∧ ty ≤ 9 →
      1 ≤ playbackSelect old ty r ∧ playbackSelect old ty r ≤ ty - 4) := by
  constructor
  · rintro ⟨h1, h2⟩
    unfold playbackSelect
    rw [if_pos h2]
  · rintro ⟨h1, h2⟩
    have hc : ty = 6 ∨ ty = 7 ∨ ty = 8 ∨ ty = 9 := by omega
    have m2 : r % 2 < 2 := Nat.mod_lt r (by norm_num)
    have m3 : r % 3 < 3 := Nat.mod_lt r (by norm_num)
    have m4 : r % 4 < 4 := Nat.mod_lt r (by norm_num)
    have m5 : r % 5 < 5 := Nat.mod_lt r (by norm_num)
    rcases hc with h | h | h | h <;> subst h <;> unfold playbackSelect <;>
      norm_num <;> omega

/-- Witness for `C1_playback_selection` at PlayType 3 and PlayType 7. -/
theorem C1_playback_selection_witness :
    playbackSelect 0 3 5 = 3 ∧
    (1 ≤ playbackSelect 0 7 5 ∧ playbackSelect 0 7 5 ≤ 7 - 4) :=
  ⟨(C1_playback_selection 0 3 5).1 (by decide),
   (C1_playback_selection 0 7 5).2 (by decide)⟩

/-- Length of a takeWhile prefix is bounded by the list length (helper
for the watchdog-arming lemma). -/
theorem takeWhile_length_le (p : Nat → Bool) (l : List Nat) :
    (l.takeWhile p).length ≤ l.length := by
  induction l with
  | nil => simp [List.takeWhile]
  | cons a t ih =>
      simp only [List.takeWhile]
      cases p a
      · simp
      · simpa using ih

/-- Every `SendCmd` call whose command fits the transmit buffer restarts
the communication watchdog with the fixed 60-second timeout. -/
theorem sendCmd_arms (frame : List Nat) (s : Sys) (h : frame.length ≤ 28) :
    (sendCmd frame s).wdog = some 60 := by
  have h2 := takeWhile_length_le (fun x => x ≠ 0) frame
  unfold sendCmd
  rw [if_neg (by omega)]

/-- Unfolded form of `recordDigits` (definitional). -/
theorem recordDigits_def (m : Int) :
    recordDigits m =
      (Int.tmod m 10,
       Int.tdiv (Int.tmod (m - Int.tmod m 10) 100) 10,
       Int.tdiv (Int.tmod (m - Int.tdiv (Int.tmod (m - Int.tmod m 10) 100) 10) 1000) 100) := rfl

/-- C5, counterexample: with the record sequence counter standing at 999,
the next record intent (`AudioRecord`) computes the digit bytes
48 48 48, i.e. the ASCII string "000" (not the claimed saturated "999",
which would be 57 57 57), still sends the record command with those
digits, and the resource-exhaustion error is not raised. -/
theorem C5_record_saturation_counterexample :
    (audioRecord (readySys 20 1 1 1 2 5 10 999 [])).digit1 = 48 ∧
    (audioRecord (readySys 20 1 1 1 2 5 10 999 [])).digit2 = 48 ∧
    (audioRecord (readySys 20 1 1 1 2 5 10 999 [])).digit3 = 48 ∧
    (audioRecord (readySys 20 1 1 1 2 5 10 999 [])).txBuffer =
      [0x7E, 0x07, 0xD6, 0x52, 48, 48, 48, 191, 0x7E] ∧
    recordOverflowWarn (recordDigits (999 + 1)) = false := by
  decide

/-- C5, amended: the next record intent after counter value `n` raises
the resource-exhaustion error exactly when the incremented counter lies
in 980..999 modulo 1000; in particular at 999 the digits wrap to "000"
and no error is raised, and the error already fires at 980..999. -/
theorem C5_record_error_range (n : Int) (h : 0 ≤ n) :
    recordOverflowWarn (recordDigits (n + 1)) = true ↔ 980 ≤ (n + 1) % 1000 := by
  rw [recordDigits_def]
  rw [show Int.tmod (n + 1) 10 = (n + 1) % 10 from
    Int.tmod_eq_emod (by omega) (by norm_num)]
  rw [show n + 1 - (n + 1) % 10 = 10 * ((n + 1) / 10) from by omega]
  rw [show Int.tmod (10 * ((n + 1) / 10)) 100 = 10 * ((n + 1) / 10 % 10) from ?h1]
  case h1 =>
    rw [Int.tmod_eq_emod (by omega) (by norm_num)]
    have h2 := Int.mul_emod_mul_of_pos ((n + 1) / 10) 10 (a := 10) (by norm_num)
    simpa using h2
  rw [show Int.tdiv (10 * ((n + 1) / 10 % 10)) 10 = (n + 1) / 10 % 10 from ?h2]
  case h2 =>
    rw [Int.tdiv_eq_ediv (by omega) (by norm_num)]
    exact Int.mul_ediv_cancel_left _ (by norm_num)
  rw [show Int.tmod (n + 1 - (n + 1) / 10 % 10) 1000
        = (n + 1 - (n + 1) / 10 % 10) % 1000 from
    Int.tmod_eq_emod (by omega) (by norm_num)]
  rw [show Int.tdiv ((n + 1 - (n + 1) / 10 % 10) % 1000) 100
        = (n + 1 - (n + 1) / 10 % 10) % 1000 / 100 from
    Int.tdiv_eq_ediv (by omega) (by norm_num)]
  obtain ⟨s, t, x, u, ht0, ht9, hx0, hx9, hu0, hu9, hs0, hm⟩ :
      ∃ s t x u : Int, 0 ≤ t ∧ t ≤ 9 ∧ 0 ≤ x ∧ x ≤ 9 ∧ 0 ≤ u ∧ u ≤ 9 ∧ 0 ≤ s ∧
        n + 1 = 1000 * s + 100 * t + 10 * x + u := by
    refine ⟨(n + 1) / 1000, (n + 1) / 100 % 10, (n + 1) / 10 % 10, (n + 1) % 10,
      ?_, ?_, ?_, ?_, ?_, ?_, ?_, ?_⟩ <;> omega
  have e1 : (n + 1) / 10 % 10 = x := by omega
  have e3 : (n + 1) % 1000 = 100 * t + 10 * x + u := by omega
  rw [e1, e3]
  have hw : (n + 1 - x) % 1000 = 100 * t + 9 * x + u := by
    rw [show n + 1 - x = 100 * t + 9 * x + u + 1000 * s from by omega]
    rw [Int.add_mul_emod_self_left]
    exact Int.emod_eq_of_lt (by omega) (by omega)
  have e5 : (n + 1 - x) % 1000 / 100 = t := by
    rw [hw, show (100 : Int) * t + 9 * x + u = 9 * x + u + 100 * t from by ring,
        Int.add_mul_ediv_left _ _ (by norm_num : (100:Int) ≠ 0),
        Int.ediv_eq_zero_of_lt (by omega) (by omega)]
    ring
  rw [e5]
  simp only [recordOverflowWarn, Bool.and_eq_true, decide_eq_true_eq, ge_iff_le]
  omega

/-- Witness for `C5_record_error_range` at counter 999 (no error) and at
counter 979 (error raised). -/
theorem C5_record_error_range_witness :
    recordOverflowWarn (recordDigits (999 + 1)) = false ∧
    recordOverflowWarn (recordDigits (979 + 1)) = true := by
  constructor
  · have h2 := (C5_record_error_range 999 (by norm_num)).2
    by_contra hb
    simp only [Bool.not_eq_false] at hb
    have h3 := (C5_record_error_range 999 (by norm_num)).1 hb
    norm_num at h3
  · exact (C5_record_error_range 979 (by norm_num)).2 (by norm_num)

/-- C9: with volume configuration value 78 the volume-control frame
checksum `4 + 174 + 78 = 256` truncates to the byte `0x00`, so the
constructed 6-byte frame contains a NUL before the end marker and the
transmitted sequence (what `strlen`/`strcpy`/the TX handler emit) is only
the first 4 bytes: the transmission is truncated before the checksum and
end marker. -/
theorem C9_volume_frame_truncation :
    byteOf (4 + 174 + Int.ofNat 78) = 0 ∧
    (audioSendCmdSeq AUDIO_STATE_SEND_VC
      { readySys 20 1 1 1 2 5 10 295 [] with cfgVC := 78 }).txBuffer =
      [0x7E, 0x04, 0xAE, 78] ∧
    (audioSendCmdSeq AUDIO_STATE_SEND_VC
      { readySys 20 1 1 1 2 5 10 295 [] with cfgVC := 78 }).txBuffer.length <
      [0x7E, 0x04, 0xAE, 78, byteOf (4 + 174 + Int.ofNat 78), 0x7E].length := by
  decide

/-- C8, counterexample: the capacity query (`AUDIO_GET_SPACE_LEFT`) and
the volume configuration step (`AUDIO_STATE_SEND_VC`) arm the watchdog
with the identical 60-second timeout, so the capacity-query timeout is
not strictly longer than the configuration-step timeout. -/
theorem C8_watchdog_counterexample :
    (audioSendCmdSeq AUDIO_GET_SPACE_LEFT (readySys 20 1 1 1 2 5 10 295 [])).wdog
      = some 60 ∧
    (audioSendCmdSeq AUDIO_STATE_SEND_VC (readySys 20 1 1 1 2 5 10 295 [])).wdog
      = some 60 := by
  decide

/-- C8, amended: every command transmission of `AudioSendCmdSeq` arms
the communication watchdog with the same fixed 60-second timeout,
regardless of the state (there is no per-state timeout). -/
theorem C8_watchdog_uniform (st : AUDIO_STATE) (s : Sys)
    (h : st ∈ [AUDIO_GET_WORK_STATUS, AUDIO_GET_SPACE_LEFT,
               AUDIO_GET_FILE_NUMBERS, AUDIO_STATE_SEND_VC, AUDIO_STATE_SEND_ST,
               AUDIO_STATE_SEND_IM, AUDIO_STATE_SEND_RQ, AUDIO_SEND_PLAYBACK,
               AUDIO_SEND_RECORD, AUDIO_SEND_PLAYBACK_STOP,
               AUDIO_SEND_RECORD_STOP]) :
    (audioSendCmdSeq st s).wdog = some 60 := by
  simp only [List.mem_cons, List.not_mem_nil, or_false] at h
  rcases h with h | h | h | h | h | h | h | h | h | h | h <;> subst h <;>
    simp only [audioSendCmdSeq] <;>
    (repeat' split) <;>
    (apply sendCmd_arms ; simp [stopPlaybackFrame])

/-- Witness for `C8_watchdog_uniform` at the volume step. -/
theorem C8_watchdog_uniform_witness :
    (audioSendCmdSeq AUDIO_STATE_SEND_VC (readySys 20 1 1 1 2 5 10 295 [])).wdog
      = some 60 :=
  C8_watchdog_uniform AUDIO_STATE_SEND_VC (readySys 20 1 1 1 2 5 10 295 [])
    (by decide)

/-- C4, counterexample: a reply in state `AUDIO_STATE_SEND_RQ` with the
accumulated communication error count at 3 leaves the count at 3
(nothing in the handler writes `l_ComErrorCnt`), while the claim says it
is cleared to zero; init-done and the transition to Operational do
happen. -/
theorem C4_errorcount_not_cleared :
    (checkAudioData { readySys 20 1 1 1 2 5 10 295 [] with
        lState := AUDIO_STATE_SEND_RQ, comErrorCnt := 3,
        flgComCompleted := false, b0 := 2 }).comErrorCnt = 3 ∧
    (checkAudioData { readySys 20 1 1 1 2 5 10 295 [] with
        lState := AUDIO_STATE_SEND_RQ, comErrorCnt := 3,
        flgComCompleted := false, b0 := 2 }).flgAudioInitIsDone = true ∧
    (checkAudioData { readySys 20 1 1 1 2 5 10 295 [] with
        lState := AUDIO_STATE_SEND_RQ, comErrorCnt := 3,
        flgComCompleted := false, b0 := 2 }).lState =
      AUDIO_STATE_OPERATIONAL := by
  decide

/-- C4, amended: on a reply received in state `AUDIO_STATE_SEND_RQ` the
engine sets the init-done flag, transitions to Operational and clears
the lock flag; the communication error counter is left unchanged (it is
not cleared to zero). -/
theorem C4_sendrq_reply (s : Sys) (h : s.lState = AUDIO_STATE_SEND_RQ) :
    (checkAudioData s).flgAudioInitIsDone = true ∧
    (checkAudioData s).lState = AUDIO_STATE_OPERATIONAL ∧
    (checkAudioData s).comErrorCnt = s.comErrorCnt ∧
    (checkAudioData s).flgLocked = false := by
  cases s
  dsimp only at h
  subst h
  simp only [checkAudioData]
  split <;> simp

/-- Witness for `C4_sendrq_reply` at a concrete state. -/
theorem C4_sendrq_reply_witness :
    (checkAudioData { readySys 20 1 1 1 2 5 10 295 [] with
        lState := AUDIO_STATE_SEND_RQ }).flgAudioInitIsDone = true ∧
    (checkAudioData { readySys 20 1 1 1 2 5 10 295 [] with
        lState := AUDIO_STATE_SEND_RQ }).lState = AUDIO_STATE_OPERATIONAL ∧
    (checkAudioData { readySys 20 1 1 1 2 5 10 295 [] with
        lState := AUDIO_STATE_SEND_RQ }).comErrorCnt =
      ({ readySys 20 1 1 1 2 5 10 295 [] with
        lState := AUDIO_STATE_SEND_RQ } : Sys).comErrorCnt ∧
    (checkAudioData { readySys 20 1 1 1 2 5 10 295 [] with
        lState := AUDIO_STATE_SEND_RQ }).flgLocked = false :=
  C4_sendrq_reply _ rfl

/-- C6, counterexample: `AudioDisable` called mid-exchange (playback
command in flight, watchdog armed) leaves the watchdog timer armed with
its full 60-second timeout and leaves the transmit buffer content in
place: the claimed watchdog cancellation and buffer clearing do not
happen. -/
theorem C6_disable_leaves_timer_armed :
    (audioDisable { readySys 20 1 1 1 2 5 10 295 [] with
        lState := AUDIO_SEND_PLAYBACK, wdog := some 60, flgLocked := true,
        txBuffer := [0x7E, 0x07, 0xA3, 0x50, 0x30, 0x30, 50, 140, 0x7E],
        rxIdx := 2 }).wdog = some 60 ∧
    (audioDisable { readySys 20 1 1 1 2 5 10 295 [] with
        lState := AUDIO_SEND_PLAYBACK, wdog := some 60, flgLocked := true,
        txBuffer := [0x7E, 0x07, 0xA3, 0x50, 0x30, 0x30, 50, 140, 0x7E],
        rxIdx := 2 }).txBuffer =
      [0x7E, 0x07, 0xA3, 0x50, 0x30, 0x30, 50, 140, 0x7E] := by
  decide

/-- C6, amended: `AudioDisable` from any powered-on state (including
mid-exchange) drops the power rail, resets the protocol state to Off,
clears the error indication and the lock/play flags; it does not cancel
the communication watchdog (the timer stays armed exactly as it was) and
does not clear the transmit/receive buffers (their contents and the
receive index are reset only at the next power-on). -/
theorem C6_disable_shutdown (s : Sys) (h1 : s.flgAudioOn = true)
    (h2 : s.flgAudioIsOn = true) :
    (audioDisable s).flgAudioOn = false ∧
    (audioDisable s).flgAudioIsOn = false ∧
    (audioDisable s).lState = AUDIO_STATE_OFF ∧
    (audioDisable s).pwrRail = false ∧
    (audioDisable s).flgLocked = false ∧
    (audioDisable s).errAudio = false ∧
    (audioDisable s).wdog = s.wdog ∧
    (audioDisable s).txBuffer = s.txBuffer ∧
    (audioDisable s).b0 = s.b0 ∧
    (audioDisable s).rxIdx = s.rxIdx := by
  unfold audioDisable audioPowerOff
  simp [h1, h2]

/-- Witness for `C6_disable_shutdown` at a concrete mid-exchange state. -/
theorem C6_disable_shutdown_witness :
    (audioDisable { readySys 20 1 1 1 2 5 10 295 [] with
        lState := AUDIO_SEND_PLAYBACK, wdog := some 60 }).flgAudioOn = false ∧
    (audioDisable { readySys 20 1 1 1 2 5 10 295 [] with
        lState := AUDIO_SEND_PLAYBACK, wdog := some 60 }).flgAudioIsOn = false ∧
    (audioDisable { readySys 20 1 1 1 2 5 10 295 [] with
        lState := AUDIO_SEND_PLAYBACK, wdog := some 60 }).lState =
      AUDIO_STATE_OFF ∧
    (audioDisable { readySys 20 1 1 1 2 5 10 295 [] with
        lState := AUDIO_SEND_PLAYBACK, wdog := some 60 }).pwrRail = false ∧
    (audioDisable { readySys 20 1 1 1 2 5 10 295 [] with
        lState := AUDIO_SEND_PLAYBACK, wdog := some 60 }).flgLocked = false ∧
    (audioDisable { readySys 20 1 1 1 2 5 10 295 [] with
        lState := AUDIO_SEND_PLAYBACK, wdog := some 60 }).errAudio = false ∧
    (audioDisable { readySys 20 1 1 1 2 5 10 295 [] with
        lState := AUDIO_SEND_PLAYBACK, wdog := some 60 }).wdog =
      ({ readySys 20 1 1 1 2 5 10 295 [] with
        lState := AUDIO_SEND_PLAYBACK, wdog := some 60 } : Sys).wdog ∧
    (audioDisable { readySys 20 1 1 1 2 5 10 295 [] with
        lState := AUDIO_SEND_PLAYBACK, wdog := some 60 }).txBuffer =
      ({ readySys 20 1 1 1 2 5 10 295 [] with
        lState := AUDIO_SEND_PLAYBACK, wdog := some 60 } : Sys).txBuffer ∧
    (audioDisable { readySys 20 1 1 1 2 5 10 295 [] with
        lState := AUDIO_SEND_PLAYBACK, wdog := some 60 }).b0 =
      ({ readySys 20 1 1 1 2 5 10 295 [] with
        lState := AUDIO_SEND_PLAYBACK, wdog := some 60 } : Sys).b0 ∧
    (audioDisable { readySys 20 1 1 1 2 5 10 295 [] with
        lState := AUDIO_SEND_PLAYBACK, wdog := some 60 }).rxIdx =
      ({ readySys 20 1 1 1 2 5 10 295 [] with
        lState := AUDIO_SEND_PLAYBACK, wdog := some 60 } : Sys).rxIdx :=
  C6_disable_shutdown _ rfl rfl

/-- C7: the work-status reply classification is a copy-paste defect.  All
five status branches compare the same two bytes `0xC3 0x82` (the UTF-8
encoding of the literal, with the distinguishing third byte beyond the
compared length), so the only reply that matches any branch executes all
five in sequence: it sends the space-left query, overwrites the state
with Operational, then runs `AudioSendCmdSeq` on the invalid successor
states and ends in state Off - not in Operational for "stopped" nor in
QuerySpaceLeft for the other statuses.  A genuine device status reply
(first byte 0xC2) never matches and takes the failure branch, leaving the
state unchanged. -/
theorem C7_work_status_defect :
    (checkAudioData { readySys 20 1 1 1 2 5 10 295 [] with
        lState := AUDIO_GET_WORK_STATUS, b0 := 0xC3, b1 := 0x82,
        checkData := 2, flgComCompleted := false }).lState =
      AUDIO_STATE_OFF ∧
    (checkAudioData { readySys 20 1 1 1 2 5 10 295 [] with
        lState := AUDIO_GET_WORK_STATUS, b0 := 0xC3, b1 := 0x82,
        checkData := 2, flgComCompleted := false }).txBuffer =
      [0x7E, 0x03, 0xCE, 0xD1, 0x7E] ∧
    (checkAudioData { readySys 20 1 1 1 2 5 10 295 [] with
        lState := AUDIO_GET_WORK_STATUS, b0 := 0xC2, b1 := 2,
        checkData := 2, flgComCompleted := false }).lState =
      AUDIO_GET_WORK_STATUS ∧
    (checkAudioData { readySys 20 1 1 1 2 5 10 295 [] with
        lState := AUDIO_GET_WORK_STATUS, b0 := 0xC2, b1 := 2,
        checkData := 2, flgComCompleted := false }).errAudio = true := by
  decide

/-- Projection of a conditional state: pushes `comErrorCnt` through
`if`, so that branch-wise unchanged fields collapse via `ite_self`. -/
@[simp] theorem ite_cnt (c : Prop) [Decidable c] (a b : Sys) :
    (if c then a else b).comErrorCnt =
      if c then a.comErrorCnt else b.comErrorCnt := by
  split <;> rfl

/-- The transmit path never touches the communication error counter. -/
@[simp] theorem sendCmd_cnt (f : List Nat) (s : Sys) :
    (sendCmd f s).comErrorCnt = s.comErrorCnt := by
  simp [sendCmd]

/-- `AudioSendCmdSeq` never touches the communication error counter. -/
@[simp] theorem audioSendCmdSeq_cnt (st : AUDIO_STATE) (s : Sys) :
    (audioSendCmdSeq st s).comErrorCnt = s.comErrorCnt := by
  cases st <;> simp [audioSendCmdSeq]

/-- `AudioPlayback` never touches the communication error counter. -/
@[simp] theorem audioPlayback_cnt (r : Nat) (s : Sys) :
    (audioPlayback r s).comErrorCnt = s.comErrorCnt := by
  simp [audioPlayback]

/-- `AudioRecord` never touches the communication error counter. -/
@[simp] theorem audioRecord_cnt (s : Sys) :
    (audioRecord s).comErrorCnt = s.comErrorCnt := by
  simp [audioRecord]

/-- `CheckAudioData` never touches the communication error counter. -/
@[simp] theorem checkAudioData_cnt (s : Sys) :
    (checkAudioData s).comErrorCnt = s.comErrorCnt := by
  rcases hs : s.lState <;> simp [checkAudioData, hs]

/-- Receive-buffer writes never touch the communication error counter. -/
@[simp] theorem writeRx_cnt (i v : Nat) (s : Sys) :
    (writeRx i v s).comErrorCnt = s.comErrorCnt := by
  simp [writeRx]

/-- The RX interrupt handler never touches the error counter. -/
@[simp] theorem usartRx_cnt (b : Nat) (s : Sys) :
    (usartRx b s).comErrorCnt = s.comErrorCnt := by
  simp [usartRx]

/-- `AudioPowerOn` never touches the error counter. -/
@[simp] theorem audioPowerOn_cnt (s : Sys) :
    (audioPowerOn s).comErrorCnt = s.comErrorCnt := rfl

/-- `AudioPowerOff` never touches the error counter. -/
@[simp] theorem audioPowerOff_cnt (s : Sys) :
    (audioPowerOff s).comErrorCnt = s.comErrorCnt := rfl

/-- `AudioEnable` never touches the error counter. -/
@[simp] theorem audioEnable_cnt (s : Sys) :
    (audioEnable s).comErrorCnt = s.comErrorCnt := rfl

/-- `AudioDisable` never touches the error counter. -/
@[simp] theorem audioDisable_cnt (s : Sys) :
    (audioDisable s).comErrorCnt = s.comErrorCnt := by
  simp [audioDisable]

/-- The power section of `AudioCheck` never touches the error counter. -/
@[simp] theorem audioCheckPower_cnt (s : Sys) :
    (audioCheckPower s).comErrorCnt = s.comErrorCnt := by
  simp [audioCheckPower]

/-- The start-playback section never touches the error counter. -/
@[simp] theorem audioCheckPlayStart_cnt (r : Nat) (a b : Bool) (s : Sys) :
    (audioCheckPlayStart r a b s).comErrorCnt = s.comErrorCnt := by
  simp [audioCheckPlayStart]

/-- The stop-playback section never touches the error counter. -/
@[simp] theorem audioCheckPlayStop_cnt (a b : Bool) (s : Sys) :
    (audioCheckPlayStop a b s).comErrorCnt = s.comErrorCnt := by
  simp [audioCheckPlayStop]

/-- The start-record section never touches the error counter. -/
@[simp] theorem audioCheckRecStart_cnt (a b : Bool) (s : Sys) :
    (audioCheckRecStart a b s).comErrorCnt = s.comErrorCnt := by
  simp [audioCheckRecStart]

/-- The stop-record section never touches the error counter. -/
@[simp] theorem audioCheckRecStop_cnt (a b : Bool) (s : Sys) :
    (audioCheckRecStop a b s).comErrorCnt = s.comErrorCnt := by
  simp [audioCheckRecStop]

/-- One `AudioCheck` iteration never touches the error counter. -/
@[simp] theorem audioCheck_cnt (r : Nat) (s : Sys) :
    (audioCheck r s).comErrorCnt = s.comErrorCnt := by
  simp [audioCheck]

/-- `PlaybackRun` never touches the error counter. -/
@[simp] theorem playbackRun_cnt (s : Sys) :
    (playbackRun s).comErrorCnt = s.comErrorCnt := by
  simp [playbackRun]

/-- `RecordRun` never touches the error counter. -/
@[simp] theorem recordRun_cnt (s : Sys) :
    (recordRun s).comErrorCnt = s.comErrorCnt := by
  simp [recordRun]

/-- `ControlUpdateID` never touches the error counter. -/
@[simp] theorem controlUpdateID_cnt (f a u g : Option ID_PARM) (s : Sys) :
    ((controlUpdateID f a u g s).1).comErrorCnt = s.comErrorCnt := by
  simp only [controlUpdateID]
  (repeat' split) <;> simp

/-- `PlayRecAction` never touches the error counter. -/
@[simp] theorem playRecAction_cnt (s : Sys) :
    (playRecAction s).comErrorCnt = s.comErrorCnt := by
  simp [playRecAction]

/-- The watchdog handler either leaves the error counter unchanged or,
when it records a real communication timeout, increments it from a value
of at most `MAX_COM_ERROR_CNT = 10`. -/
theorem audioComTimeout_cnt (s : Sys) :
    (audioComTimeout s).comErrorCnt = s.comErrorCnt ∨
    (s.comErrorCnt ≤ 10 ∧
      (audioComTimeout s).comErrorCnt = s.comErrorCnt + 1) := by
  simp only [audioComTimeout]
  (repeat' split) <;> simp <;> omega

/-- Per-step bound: no event can push the error counter past 11. -/
theorem step_cnt_le (e : Ev) (s : Sys) (h : s.comErrorCnt ≤ 11) :
    (step e s).comErrorCnt ≤ 11 := by
  cases e <;> simp only [step]
  case updateID => simp [h]
  case keepAlive => split <;> simp [h]
  case check => simp [h]
  case rx => simp [h]
  case txDone => simpa using h
  case timeout =>
    split
    · rcases audioComTimeout_cnt { s with wdog := none } with h2 | ⟨h3, h4⟩
      · simpa [h2] using h
      · simp only [h4]
        simp at h3
        omega
    · exact h
  case enable => simp [h]
  case disable => simp [h]

/-- Projection of a conditional state for the protocol state field. -/
@[simp] theorem ite_lState (c : Prop) [Decidable c] (a b : Sys) :
    (if c then a else b).lState = if c then a.lState else b.lState := by
  split <;> rfl

/-- Projection of a conditional state for the power-request flag. -/
@[simp] theorem ite_audioOn (c : Prop) [Decidable c] (a b : Sys) :
    (if c then a else b).flgAudioOn =
      if c then a.flgAudioOn else b.flgAudioOn := by
  split <;> rfl

/-- The transmit path never touches the power-request flag. -/
@[simp] theorem sendCmd_audioOn (f : List Nat) (s : Sys) :
    (sendCmd f s).flgAudioOn = s.flgAudioOn := by
  simp [sendCmd]

/-- `AudioSendCmdSeq` never touches the power-request flag. -/
@[simp] theorem audioSendCmdSeq_audioOn (st : AUDIO_STATE) (s : Sys) :
    (audioSendCmdSeq st s).flgAudioOn = s.flgAudioOn := by
  cases st <;> simp [audioSendCmdSeq]

/-- `AudioPlayback` never touches the power-request flag. -/
@[simp] theorem audioPlayback_audioOn (r : Nat) (s : Sys) :
    (audioPlayback r s).flgAudioOn = s.flgAudioOn := by
  simp [audioPlayback]

/-- `AudioRecord` never touches the power-request flag. -/
@[simp] theorem audioRecord_audioOn (s : Sys) :
    (audioRecord s).flgAudioOn = s.flgAudioOn := by
  simp [audioRecord]

/-- `CheckAudioData` never touches the power-request flag. -/
@[simp] theorem checkAudioData_audioOn (s : Sys) :
    (checkAudioData s).flgAudioOn = s.flgAudioOn := by
  rcases hs : s.lState <;> simp [checkAudioData, hs]

/-- Receive-buffer writes never touch the power-request flag. -/
@[simp] theorem writeRx_audioOn (i v : Nat) (s : Sys) :
    (writeRx i v s).flgAudioOn = s.flgAudioOn := by
  simp [writeRx]

/-- The RX interrupt handler never touches the power-request flag. -/
@[simp] theorem usartRx_audioOn (b : Nat) (s : Sys) :
    (usartRx b s).flgAudioOn = s.flgAudioOn := by
  simp [usartRx]

/-- `AudioPowerOn` never touches the power-request flag. -/
@[simp] theorem audioPowerOn_audioOn (s : Sys) :
    (audioPowerOn s).flgAudioOn = s.flgAudioOn := rfl

/-- `AudioPowerOff` never touches the power-request flag. -/
@[simp] theorem audioPowerOff_audioOn (s : Sys) :
    (audioPowerOff s).flgAudioOn = s.flgAudioOn := rfl

/-- After `AudioDisable` the power-request flag is always off. -/
@[simp] theorem audioDisable_audioOn (s : Sys) :
    (audioDisable s).flgAudioOn = false := by
  simp only [audioDisable]
  (repeat' split) <;> simp_all

/-- The power section of `AudioCheck` never touches the request flag. -/
@[simp] theorem audioCheckPower_audioOn (s : Sys) :
    (audioCheckPower s).flgAudioOn = s.flgAudioOn := by
  simp [audioCheckPower]

/-- The start-playback section never touches the request flag. -/
@[simp] theorem audioCheckPlayStart_audioOn (r : Nat) (a b : Bool) (s : Sys) :
    (audioCheckPlayStart r a b s).flgAudioOn = s.flgAudioOn := by
  simp [audioCheckPlayStart]

/-- The stop-playback section never touches the request flag. -/
@[simp] theorem audioCheckPlayStop_audioOn (a b : Bool) (s : Sys) :
    (audioCheckPlayStop a b s).flgAudioOn = s.flgAudioOn := by
  simp [audioCheckPlayStop]

/-- The start-record section never touches the request flag. -/
@[simp] theorem audioCheckRecStart_audioOn (a b : Bool) (s : Sys) :
    (audioCheckRecStart a b s).flgAudioOn = s.flgAudioOn := by
  simp [audioCheckRecStart]

/-- The stop-record section never touches the request flag. -/
@[simp] theorem audioCheckRecStop_audioOn (a b : Bool) (s : Sys) :
    (audioCheckRecStop a b s).flgAudioOn = s.flgAudioOn := by
  simp [audioCheckRecStop]

/-- One `AudioCheck` iteration never touches the request flag. -/
@[simp] theorem audioCheck_audioOn (r : Nat) (s : Sys) :
    (audioCheck r s).flgAudioOn = s.flgAudioOn := by
  simp [audioCheck]

/-- `PlaybackRun` never touches the request flag. -/
@[simp] theorem playbackRun_audioOn (s : Sys) :
    (playbackRun s).flgAudioOn = s.flgAudioOn := by
  simp [playbackRun]

/-- `RecordRun` never touches the request flag. -/
@[simp] theorem recordRun_audioOn (s : Sys) :
    (recordRun s).flgAudioOn = s.flgAudioOn := by
  simp [recordRun]

/-- `ControlUpdateID` never touches the request flag. -/
@[simp] theorem controlUpdateID_audioOn (f a u g : Option ID_PARM) (s : Sys) :
    ((controlUpdateID f a u g s).1).flgAudioOn = s.flgAudioOn := by
  simp only [controlUpdateID]
  (repeat' split) <;> simp

/-- `PlayRecAction` never touches the request flag. -/
@[simp] theorem playRecAction_audioOn (s : Sys) :
    (playRecAction s).flgAudioOn = s.flgAudioOn := by
  simp [playRecAction]

/-- Reachability of the result of a run. -/
theorem run_reachAll (evs : List Ev) (s0 s : Sys) (h : ReachAll s0 s) :
    ReachAll s0 (run evs s) := by
  induction evs generalizing s with
  | nil => exact h
  | cons e t ih => exact ih (step e s) (ReachAll.next e h)

/-- Every state reachable from boot keeps the error counter at most 11. -/
theorem reachAll_cnt_le (s : Sys) (h : ReachAll bootSys s) :
    s.comErrorCnt ≤ 11 := by
  induction h with
  | refl => decide
  | next e h2 ih => exact step_cnt_le e _ ih

/-- One error cycle used by the error-budget counterexample trace: real
timeout, recovery timeout, power-on poll, power-up prompt bytes, settle
timeout. -/
def errCycle : List Ev :=
  [Ev.timeout, Ev.timeout, Ev.check 0, Ev.rx 0xC4, Ev.rx 0x98, Ev.timeout]

/-- Event trace that drives the error counter to `MAX_COM_ERROR_CNT + 1
= 11` while the audio module stays enabled and powered. -/
def errTrace : List Ev :=
  [Ev.enable, Ev.check 0, Ev.rx 0xC4, Ev.rx 0x98, Ev.timeout, Ev.timeout,
   Ev.enable, Ev.check 0, Ev.rx 0xC4, Ev.rx 0x98, Ev.timeout]
  ++ errCycle ++ errCycle ++ errCycle ++ errCycle ++ errCycle ++ errCycle
  ++ errCycle ++ errCycle ++ errCycle
  ++ [Ev.rx 0xC4, Ev.rx 0x01, Ev.rx 0x2C, Ev.timeout, Ev.rx 0x02, Ev.timeout]

/-- C3, counterexample: in the reachable state where the error counter
has just reached `MAX_COM_ERROR_CNT + 1 = 11`, the peripheral is not
disabled: the power-request flag and the power state are still on, the
power rail is up and the protocol state is a configuration state.  The
expiry that raises the counter to 11 only logs and returns. -/
theorem C3_counterexample :
    (run errTrace bootSys).comErrorCnt = 11 ∧
    (run errTrace bootSys).flgAudioOn = true ∧
    (run errTrace bootSys).flgAudioIsOn = true ∧
    (run errTrace bootSys).pwrRail = true ∧
    (run errTrace bootSys).lState = AUDIO_STATE_SEND_ST := by
  set_option maxRecDepth 10000 in decide

/-- C3, amended: in every reachable state the communication error
counter satisfies `0 ≤ counter ≤ MAX_COM_ERROR_CNT + 1 = 11`; the expiry
that raises it to 11 leaves the peripheral running, but once the counter
stands at 11 every further watchdog expiry immediately disables the
peripheral (state Off, power request cleared, counter frozen at 11), and
from that disabled state every event other than an explicit enable keeps
it disabled. -/
theorem C3_error_budget (s : Sys) (h : ReachAll bootSys s) :
    s.comErrorCnt ≤ 11 ∧
    (s.comErrorCnt = 11 →
      (audioComTimeout s).flgAudioOn = false ∧
      (audioComTimeout s).lState = AUDIO_STATE_OFF ∧
      (audioComTimeout s).comErrorCnt = 11) ∧
    (∀ e : Ev, s.comErrorCnt = 11 → s.flgAudioOn = false → e ≠ Ev.enable →
      (step e s).comErrorCnt = 11 ∧ (step e s).flgAudioOn = false) := by
  refine ⟨reachAll_cnt_le s h, ?_, ?_⟩
  · intro h11
    simp only [audioComTimeout]
    rw [if_pos (by omega)]
    refine ⟨?_, ?_, ?_⟩ <;> simp only [audioDisable, audioPowerOff] <;>
      (repeat' split) <;> simp_all
  · intro e h11 hoff hne
    cases e <;> simp only [step]
    case updateID => simp [h11, hoff]
    case keepAlive => split <;> simp [h11, hoff]
    case check => simp [h11, hoff]
    case rx => simp [h11, hoff]
    case txDone => simp [h11, hoff]
    case timeout =>
      split
      · simp only [audioComTimeout]
        rw [if_pos (by simp [h11])]
        exact ⟨by simp [h11], by simp⟩
      · exact ⟨h11, hoff⟩
    case enable => exact absurd rfl hne
    case disable => simp [h11, hoff]

/-- Witness for `C3_error_budget` at the end of the counterexample
trace (a genuinely reachable state with the counter at 11). -/
theorem C3_error_budget_witness :
    (run errTrace bootSys).comErrorCnt ≤ 11 ∧
    ((run errTrace bootSys).comErrorCnt = 11 →
      (audioComTimeout (run errTrace bootSys)).flgAudioOn = false ∧
      (audioComTimeout (run errTrace bootSys)).lState = AUDIO_STATE_OFF ∧
      (audioComTimeout (run errTrace bootSys)).comErrorCnt = 11) ∧
    (∀ e : Ev, (run errTrace bootSys).comErrorCnt = 11 →
      (run errTrace bootSys).flgAudioOn = false → e ≠ Ev.enable →
      (step e (run errTrace bootSys)).comErrorCnt = 11 ∧
      (step e (run errTrace bootSys)).flgAudioOn = false) :=
  C3_error_budget (run errTrace bootSys)
    (run_reachAll errTrace bootSys bootSys ReachAll.refl)

/-- Projection of a conditional state for the lock flag. -/
@[simp] theorem ite_locked (c : Prop) [Decidable c] (a b : Sys) :
    (if c then a else b).flgLocked =
      if c then a.flgLocked else b.flgLocked := by
  split <;> rfl

/-- Projection of a conditional state for the history variable. -/
@[simp] theorem ite_ghost (c : Prop) [Decidable c] (a b : Sys) :
    (if c then a else b).ghostOutstanding =
      if c then a.ghostOutstanding else b.ghostOutstanding := by
  split <;> rfl

/-- Projection of a conditional state for the init-done flag. -/
@[simp] theorem ite_initDone (c : Prop) [Decidable c] (a b : Sys) :
    (if c then a else b).flgAudioInitIsDone =
      if c then a.flgAudioInitIsDone else b.flgAudioInitIsDone := by
  split <;> rfl

/-- Projection of a conditional state for the powered-on flag. -/
@[simp] theorem ite_isOn (c : Prop) [Decidable c] (a b : Sys) :
    (if c then a else b).flgAudioIsOn =
      if c then a.flgAudioIsOn else b.flgAudioIsOn := by
  split <;> rfl

/-- The protocol states that occur after initialization has completed:
Operational and the four in-flight command states. -/
def opState (st : AUDIO_STATE) : Prop :=
  st = AUDIO_STATE_OPERATIONAL ∨ st = AUDIO_SEND_PLAYBACK ∨
  st = AUDIO_SEND_RECORD ∨ st = AUDIO_SEND_PLAYBACK_STOP ∨
  st = AUDIO_SEND_RECORD_STOP

/-- The lock-flag invariant: the lock flag agrees with the history
variable (a playback or record command has been sent and no stop reply
has completed successfully since), the engine is initialized, power is
requested and on, and the protocol state is Operational or an in-flight
command state. -/
def LockInv (s : Sys) : Prop :=
  s.flgLocked = s.ghostOutstanding ∧ s.flgAudioInitIsDone = true ∧
  s.flgAudioOn = true ∧ s.flgAudioIsOn = true ∧ opState s.lState

/-- `AudioPlayback` locks the module and moves into the playback
exchange; it leaves init-done and the power flags unchanged. -/
theorem lockInv_audioPlayback (r : Nat) (s : Sys)
    (h2 : s.flgAudioInitIsDone = true) (h3 : s.flgAudioOn = true)
    (h4 : s.flgAudioIsOn = true) : LockInv (audioPlayback r s) := by
  unfold LockInv opState
  simp only [audioPlayback, audioSendCmdSeq, sendCmd]
  (repeat' split) <;> simp_all

/-- `AudioRecord` locks the module and moves into the record exchange. -/
theorem lockInv_audioRecord (s : Sys)
    (h2 : s.flgAudioInitIsDone = true) (h3 : s.flgAudioOn = true)
    (h4 : s.flgAudioIsOn = true) : LockInv (audioRecord s) := by
  unfold LockInv opState
  simp only [audioRecord, audioSendCmdSeq, sendCmd]
  (repeat' split) <;> simp_all

/-- Sending the stop-playback command preserves the invariant. -/
theorem lockInv_seqPlayStop (s : Sys) (h : LockInv s) :
    LockInv (audioSendCmdSeq AUDIO_SEND_PLAYBACK_STOP s) := by
  obtain ⟨h1, h2, h3, h4, h5⟩ := h
  unfold LockInv opState
  simp only [audioSendCmdSeq, sendCmd]
  (repeat' split) <;> simp_all

/-- Sending the stop-record command preserves the invariant. -/
theorem lockInv_seqRecStop (s : Sys) (h : LockInv s) :
    LockInv (audioSendCmdSeq AUDIO_SEND_RECORD_STOP s) := by
  obtain ⟨h1, h2, h3, h4, h5⟩ := h
  unfold LockInv opState
  simp only [audioSendCmdSeq, sendCmd]
  (repeat' split) <;> simp_all

/-- When power is requested and already on, the power section of
`AudioCheck` does nothing. -/
theorem audioCheckPower_id (s : Sys) (h3 : s.flgAudioOn = true)
    (h4 : s.flgAudioIsOn = true) : audioCheckPower s = s := by
  simp [audioCheckPower, h3, h4]

/-- The start-playback section preserves the invariant. -/
theorem lockInv_playStart (r : Nat) (a b : Bool) (s : Sys) (h : LockInv s) :
    LockInv (audioCheckPlayStart r a b s) := by
  obtain ⟨h1, h2, h3, h4, h5⟩ := h
  simp only [audioCheckPlayStart]
  repeat' split
  · exact lockInv_audioPlayback r _ (by simpa using h2) (by simpa using h3)
      (by simpa using h4)
  all_goals first
  | exact ⟨h1, h2, h3, h4, h5⟩
  | simp_all

/-- The stop-playback section preserves the invariant. -/
theorem lockInv_playStop (a b : Bool) (s : Sys) (h : LockInv s) :
    LockInv (audioCheckPlayStop a b s) := by
  simp only [audioCheckPlayStop]
  split
  · apply lockInv_seqPlayStop
    obtain ⟨h1, h2, h3, h4, h5⟩ := h
    exact ⟨by simpa using h1, by simpa using h2, by simpa using h3,
           by simpa using h4, by simpa using h5⟩
  · exact h

/-- The start-record section preserves the invariant. -/
theorem lockInv_recStart (a b : Bool) (s : Sys) (h : LockInv s) :
    LockInv (audioCheckRecStart a b s) := by
  obtain ⟨h1, h2, h3, h4, h5⟩ := h
  simp only [audioCheckRecStart]
  repeat' split
  · exact lockInv_audioRecord _ (by simpa using h2) (by simpa using h3)
      (by simpa using h4)
  all_goals first
  | exact ⟨h1, h2, h3, h4, h5⟩
  | simp_all

/-- The stop-record section preserves the invariant. -/
theorem lockInv_recStop (a b : Bool) (s : Sys) (h : LockInv s) :
    LockInv (audioCheckRecStop a b s) := by
  simp only [audioCheckRecStop]
  split
  · apply lockInv_seqRecStop
    obtain ⟨h1, h2, h3, h4, h5⟩ := h
    exact ⟨by simpa using h1, by simpa using h2, by simpa using h3,
           by simpa using h4, by simpa using h5⟩
  · exact h

/-- One `AudioCheck` iteration preserves the invariant. -/
theorem lockInv_check (r : Nat) (s : Sys) (h : LockInv s) :
    LockInv (audioCheck r s) := by
  obtain ⟨h1, h2, h3, h4, h5⟩ := h
  simp only [audioCheck]
  rw [audioCheckPower_id _ (by simpa using h3) (by simpa using h4)]
  apply lockInv_recStop
  apply lockInv_recStart
  apply lockInv_playStop
  apply lockInv_playStart
  exact ⟨by simpa using h1, by simpa using h2, by simpa using h3,
         by simpa using h4, by simpa using h5⟩

/-- `CheckAudioData` preserves the invariant: in the in-flight command
states the reply handler returns to Operational, clearing the lock and
the history variable together exactly on a successful stop reply. -/
theorem lockInv_checkAudioData (s : Sys) (h : LockInv s) :
    LockInv (checkAudioData s) := by
  obtain ⟨h1, h2, h3, h4, h5⟩ := h
  unfold LockInv opState
  rcases h5 with hs | hs | hs | hs | hs <;>
    simp only [checkAudioData, hs] <;> (repeat' split) <;> simp_all

/-- A receive-buffer write preserves the invariant. -/
theorem lockInv_writeRx (i v : Nat) (s : Sys) (h : LockInv s) :
    LockInv (writeRx i v s) := by
  obtain ⟨h1, h2, h3, h4, h5⟩ := h
  unfold LockInv opState
  simp only [writeRx]
  (repeat' split) <;> simp_all [opState]

/-- The RX interrupt handler preserves the invariant. -/
theorem lockInv_rx (b : Nat) (s : Sys) (h : LockInv s) :
    LockInv (usartRx b s) := by
  simp only [usartRx]
  split
  · exact h
  · split
    · apply lockInv_checkAudioData
      apply lockInv_writeRx
      split
      · obtain ⟨h1, h2, h3, h4, h5⟩ := h
        constructor
        · simpa using h1
        · exact ⟨by simpa using h2, by simpa using h3, by simpa using h4,
                 by simpa [opState] using h5⟩
      · exact h
    · split
      · apply lockInv_writeRx
        exact h
      · exact h

/-- `PlaybackRun` preserves the invariant (it only touches control
flags). -/
theorem lockInv_playbackRun (s : Sys) (h : LockInv s) :
    LockInv (playbackRun s) := by
  obtain ⟨h1, h2, h3, h4, h5⟩ := h
  unfold LockInv opState
  simp only [playbackRun]
  (repeat' split) <;> simp_all [opState]

/-- `RecordRun` preserves the invariant. -/
theorem lockInv_recordRun (s : Sys) (h : LockInv s) :
    LockInv (recordRun s) := by
  obtain ⟨h1, h2, h3, h4, h5⟩ := h
  unfold LockInv opState
  simp only [recordRun]
  (repeat' split) <;> simp_all [opState]

/-- `ControlUpdateID` preserves the invariant: it never touches the lock
flag, the engine state or the power flags, whatever the lookup results
and whatever value the uninitialized `pID` holds. -/
theorem lockInv_updateID (f a u g : Option ID_PARM) (s : Sys)
    (h : LockInv s) : LockInv ((controlUpdateID f a u g s).1) := by
  obtain ⟨h1, h2, h3, h4, h5⟩ := h
  unfold LockInv opState
  simp only [controlUpdateID, playbackRun, recordRun]
  (repeat' split) <;> simp_all [opState]

/-- `PlayRecAction` preserves the invariant. -/
theorem lockInv_playRecAction (s : Sys) (h : LockInv s) :
    LockInv (playRecAction s) := by
  obtain ⟨h1, h2, h3, h4, h5⟩ := h
  unfold LockInv opState
  simp only [playRecAction, recordRun]
  (repeat' split) <;> simp_all [opState]

/-- The engine-ready idle state satisfies the lock invariant. -/
theorem lockInv_ready (vc st im rq : Nat) (dpt dkp dkr rfn : Int)
    (txb : List Nat) :
    LockInv (readySys vc st im rq dpt dkp dkr rfn txb) := by
  unfold LockInv opState readySys
  simp

/-- C2: in every state reachable from the engine-ready idle state under
arbitrary interleavings of ID-update and keep-alive-expiry events
(together with poll-loop iterations, received reply bytes and
transmit-complete signals), the lock flag `l_flgLocked` is true exactly
when a playback or record command has been sent and no corresponding
stop reply has completed successfully since (the history variable
`ghostOutstanding`, which is set by the `AUDIO_SEND_PLAYBACK` and
`AUDIO_SEND_RECORD` transmissions and cleared by the successful
stop-reply branches of `CheckAudioData`). -/
theorem C2_lock_iff_outstanding (vc st im rq : Nat) (dpt dkp dkr rfn : Int)
    (txb : List Nat) (s : Sys)
    (h : Reach2 (readySys vc st im rq dpt dkp dkr rfn txb) s) :
    s.flgLocked = s.ghostOutstanding := by
  suffices hInv : LockInv s from hInv.1
  induction h with
  | refl => exact lockInv_ready vc st im rq dpt dkp dkr rfn txb
  | next e h2 hc ih =>
      cases e with
      | updateID f a u g => exact lockInv_updateID f a u g _ ih
      | keepAlive =>
          simp only [step]
          split
          · apply lockInv_playRecAction
            obtain ⟨h1, h2, h3, h4, h5⟩ := ih
            exact ⟨by simpa using h1, by simpa using h2, by simpa using h3,
                   by simpa using h4, by simpa [opState] using h5⟩
          · exact ih
      | check r => exact lockInv_check r _ ih
      | rx b => exact lockInv_rx b _ ih
      | txDone =>
          obtain ⟨h1, h2, h3, h4, h5⟩ := ih
          exact ⟨by simpa using h1, by simpa using h2, by simpa using h3,
                 by simpa using h4, by simpa [opState] using h5⟩
      | timeout => exact hc.elim
      | enable => exact hc.elim
      | disable => exact hc.elim

/-- Witness for `C2_lock_iff_outstanding` at the ready state itself. -/
theorem C2_lock_iff_outstanding_witness :
    (readySys 20 1 1 1 2 5 10 295 []).flgLocked =
      (readySys 20 1 1 1 2 5 10 295 []).ghostOutstanding :=
  C2_lock_iff_outstanding 20 1 1 1 2 5 10 295 [] _ Reach2.refl

/-- Transponder parameters used by the uninitialized-pointer scenario:
keep-playback 5 s, keep-record 10 s, playback type 2. -/
def c10Parm : ID_PARM := ⟨some 5, some 10, some 2⟩

/-- Event trace for the uninitialized-pointer scenario: one ID update
that starts a playback intent, and one poll-loop iteration that sends
the playback command and sets the lock. -/
def c10Trace : List Ev :=
  [Ev.updateID (some c10Parm) none none none, Ev.check 0]

/-- C10: the state after `c10Trace` is reachable from the ready state,
has `IsAudioLocked()` true and the twice-ID lock flag set, and a further
`ControlUpdateID` call in that state skips the guarded `CfgLookupID`
assignment and reaches the `pID == NULL` test with the local variable
`pID` never assigned (the second component of the embedding flags the
read of the uninitialized value). -/
theorem C10_uninitialized_pID :
    Reach2 (readySys 20 1 1 1 2 5 10 295 [])
      (run c10Trace (readySys 20 1 1 1 2 5 10 295 [])) ∧
    (run c10Trace (readySys 20 1 1 1 2 5 10 295 [])).flgLocked = true ∧
    (run c10Trace (readySys 20 1 1 1 2 5 10 295 [])).flgTwiceIDLocked = true ∧
    (controlUpdateID (some c10Parm) none none none
      (run c10Trace (readySys 20 1 1 1 2 5 10 295 []))).2 = true := by
  refine ⟨?_, by decide, by decide, by decide⟩
  exact Reach2.next (Ev.check 0)
    (Reach2.next (Ev.updateID (some c10Parm) none none none)
      Reach2.refl trivial) trivial
